import Mathlib

/-!
Shallow embedding of the value-marshalling bridge in src/python.cpp:
guest (Python) values, host (R) values, the converters py_to_r and
r_to_py, the error bridge py_fetch_error, the attribute-kind classifier
py_get_attribute_types, the bootstrap py_initialize and py_run_file.
-/

/-- A C double, modelled as a rational payload plus a NaN flag (the
bridge copies doubles bit-for-bit and never computes with them). -/
structure CDouble where
  isNaN : Bool
  val : Rat
deriving DecidableEq, Repr, Inhabited

/-- Numpy element-type tags (NPY_TYPES enumeration), with their numeric
codes given by `NpyType.toNat`. -/
inductive NpyType where
  | NPY_BOOL | NPY_BYTE | NPY_UBYTE | NPY_SHORT | NPY_USHORT
  | NPY_INT | NPY_UINT | NPY_LONG | NPY_ULONG | NPY_LONGLONG | NPY_ULONGLONG
  | NPY_FLOAT | NPY_DOUBLE | NPY_LONGDOUBLE
  | NPY_CFLOAT | NPY_CDOUBLE | NPY_CLONGDOUBLE
  | NPY_OBJECT | NPY_STRING | NPY_UNICODE | NPY_VOID
  | NPY_DATETIME | NPY_TIMEDELTA | NPY_HALF
deriving DecidableEq, Repr

/-- Numeric code of a numpy type tag (the `%d` printed in error
messages). -/
def NpyType.toNat : NpyType → Nat
  | .NPY_BOOL => 0
  | .NPY_BYTE => 1
  | .NPY_UBYTE => 2
  | .NPY_SHORT => 3
  | .NPY_USHORT => 4
  | .NPY_INT => 5
  | .NPY_UINT => 6
  | .NPY_LONG => 7
  | .NPY_ULONG => 8
  | .NPY_LONGLONG => 9
  | .NPY_ULONGLONG => 10
  | .NPY_FLOAT => 11
  | .NPY_DOUBLE => 12
  | .NPY_LONGDOUBLE => 13
  | .NPY_CFLOAT => 14
  | .NPY_CDOUBLE => 15
  | .NPY_CLONGDOUBLE => 16
  | .NPY_OBJECT => 17
  | .NPY_STRING => 18
  | .NPY_UNICODE => 19
  | .NPY_VOID => 20
  | .NPY_DATETIME => 21
  | .NPY_TIMEDELTA => 22
  | .NPY_HALF => 23

/-- An element stored in a numpy array buffer (boolean, integral, or
floating). -/
inductive NpyVal where
  | b (x : Bool)
  | i (x : Int)
  | d (x : CDouble)
deriving DecidableEq, Repr

/-- A guest (Python) value, as observed through the C API calls the
bridge makes.  A tuple carries its optional `_fields` attribute; an
array carries its dims, its element-type tag and its element buffer in
Fortran order; every other object is opaque (with its callability and a
class tag). -/
inductive PyObj where
  | PyNone
  | PyBool (b : Bool)
  | PyInt (n : Int)
  | PyLong (n : Int)
  | PyFloat (d : CDouble)
  | PyString (s : String)
  | PyList (xs : List PyObj)
  | PyTuple (xs : List PyObj) (fieldsAttr : Option PyObj)
  | PyDict (entries : List (String × PyObj))
  | PyArray (dims : List Int) (typenum : NpyType) (data : List NpyVal)
  | PyOtherObj (callable : Bool) (tag : String)

/-- SEXP type tags used by the bridge. -/
inductive SexpType where
  | NILSXP | LGLSXP | INTSXP | REALSXP | STRSXP
deriving DecidableEq, Repr

/-- A host (R) value: typed vectors with an optional dim attribute,
generic lists with optional names and dim, a wrapped guest object
(`py_object` external pointer), or any other host value the bridge does
not handle. -/
inductive RObj where
  | RNull
  | RInt (xs : List Int) (dim : Option (List Int))
  | RReal (xs : List CDouble) (dim : Option (List Int))
  | RLgl (xs : List Bool) (dim : Option (List Int))
  | RStr (xs : List String) (dim : Option (List Int))
  | RList (xs : List RObj) (names : Option (List String)) (dim : Option (List Int))
  | RPyObject (obj : PyObj)
  | ROther (desc : String)

/-- PyBool_Check. -/
def PyBool_Check : PyObj → Bool
  | .PyBool _ => true
  | _ => false

/-- PyInt_Check (true on bools too, since bool subclasses int). -/
def PyInt_Check : PyObj → Bool
  | .PyBool _ => true
  | .PyInt _ => true
  | _ => false

/-- PyLong_Check. -/
def PyLong_Check : PyObj → Bool
  | .PyLong _ => true
  | _ => false

/-- PyFloat_Check. -/
def PyFloat_Check : PyObj → Bool
  | .PyFloat _ => true
  | _ => false

/-- PyString_Check. -/
def PyString_Check : PyObj → Bool
  | .PyString _ => true
  | _ => false

/-- PyList_Check. -/
def PyList_Check : PyObj → Bool
  | .PyList _ => true
  | _ => false

/-- PyTuple_Check. -/
def PyTuple_Check : PyObj → Bool
  | .PyTuple _ _ => true
  | _ => false

/-- PyDict_Check. -/
def PyDict_Check : PyObj → Bool
  | .PyDict _ => true
  | _ => false

/-- PyArray_Check. -/
def PyArray_Check : PyObj → Bool
  | .PyArray _ _ _ => true
  | _ => false

/-- PyCallable_Check: callability of a guest object.  Scalars,
containers and arrays are never callable; an opaque object carries its
own callability. -/
def PyCallable_Check : PyObj → Bool
  | .PyOtherObj c _ => c
  | _ => false

/-- Pointer comparison with the Py_True singleton. -/
def eqPyTrue : PyObj → Bool
  | .PyBool b => b
  | _ => false

/-- PyInt_AsLong (returns -1 on a non-integer, as the C API does). -/
def PyInt_AsLong : PyObj → Int
  | .PyBool b => if b then 1 else 0
  | .PyInt n => n
  | .PyLong n => n
  | _ => -1

/-- PyFloat_AsDouble (returns -1.0 on a non-float, as the C API does). -/
def PyFloat_AsDouble : PyObj → CDouble
  | .PyFloat d => d
  | _ => ⟨false, -1⟩

/-- PyString_AsString: the byte payload of a string object, none on a
non-string (where the C API sets an error and returns NULL). -/
def PyString_AsString : PyObj → Option String
  | .PyString s => some s
  | _ => none

/-- PyString_AsString at a place where the object is known to be a
string (the default is never reached there). -/
def asStringD (x : PyObj) : String :=
  (PyString_AsString x).getD ""

/-- r_scalar_type: which R scalar type a guest value maps to
(NILSXP when it is not a scalar).  Mirrors python.cpp lines 105-125. -/
def r_scalar_type (x : PyObj) : SexpType :=
  if PyBool_Check x then .LGLSXP
  else if PyInt_Check x || PyLong_Check x then .INTSXP
  else if PyFloat_Check x then .REALSXP
  else if PyString_Check x then .STRSXP
  else .NILSXP

/-- scalar_list_type: the common scalar type of a guest list's elements,
NILSXP when the list is empty, has a non-scalar element, or mixes
kinds.  Mirrors python.cpp lines 128-146. -/
def scalar_list_type (xs : List PyObj) : SexpType :=
  match xs with
  | [] => .NILSXP
  | first :: rest =>
    let scalarType := r_scalar_type first
    if scalarType = .NILSXP then .NILSXP
    else if rest.all (fun next => r_scalar_type next == scalarType) then scalarType
    else .NILSXP

/-- py_tuple_to_character: the string payloads of a tuple's elements;
none models the crash when PyString_AsString is applied to a non-string
element.  Mirrors python.cpp lines 149-155. -/
def py_tuple_to_character : List PyObj → Option (List String)
  | [] => some []
  | x :: xs => do
    let s ← PyString_AsString x
    let rest ← py_tuple_to_character xs
    some (s :: rest)

/-- The typenum-normalization switch of the numpy branch of py_to_r
(python.cpp lines 262-286): boolean stays boolean, the narrow integer
kinds collapse to machine long, the floating kinds collapse to double,
anything else stops with a message carrying the numeric type tag. -/
def normalize_array_typenum (t : NpyType) : Except String NpyType :=
  match t with
  | .NPY_BOOL => .ok .NPY_BOOL
  | .NPY_BYTE | .NPY_UBYTE | .NPY_SHORT | .NPY_USHORT | .NPY_INT | .NPY_LONG =>
    .ok .NPY_LONG
  | .NPY_FLOAT | .NPY_DOUBLE => .ok .NPY_DOUBLE
  | other =>
    .error ("Conversion from numpy array type " ++ toString other.toNat ++ " is not supported")

/-- PyArray_CastToType on one element, to a canonical target kind
(value-preserving on the kinds the normalization produces; the
fall-through reinterprets, as a C buffer read would). -/
def npy_cast_val : NpyType → NpyVal → NpyVal
  | .NPY_BOOL, .b x => .b x
  | .NPY_LONG, .b x => .i (if x then 1 else 0)
  | .NPY_LONG, .i x => .i x
  | .NPY_DOUBLE, .i x => .d ⟨false, (x : Rat)⟩
  | .NPY_DOUBLE, .d x => .d x
  | _, v => v

/-- Read of an npy_bool buffer cell. -/
def NpyVal.asBool : NpyVal → Bool
  | .b x => x
  | .i x => x ≠ 0
  | .d x => x.val ≠ 0

/-- Read of an npy_long buffer cell. -/
def NpyVal.asLong : NpyVal → Int
  | .i x => x
  | .b x => if x then 1 else 0
  | .d _ => 0

/-- Read of an npy_double buffer cell. -/
def NpyVal.asDouble : NpyVal → CDouble
  | .d x => x
  | .i x => ⟨false, (x : Rat)⟩
  | .b x => ⟨false, if x then 1 else 0⟩

mutual

/-- py_to_r: convert a guest value to a host value (python.cpp lines
158-335).  None maps to null; scalars map to length-1 vectors — the
integer scalar case is wrap(PyInt_AsLong(x)), and Rcpp's wrap of a C
long yields a numeric (REALSXP) vector, R having no 64-bit integer, so
a guest integer scalar becomes a host double; lists of one scalar kind
map to typed vectors and other lists to generic lists; tuples map to
generic lists with names from a well-formed `_fields`; dicts map to
named generic lists; numpy arrays are normalized, cast and copied;
everything else is wrapped. -/
def py_to_r : PyObj → Except String RObj
  | .PyNone => .ok .RNull
  | .PyBool b => .ok (.RLgl [eqPyTrue (.PyBool b)] none)
  | .PyInt n => .ok (.RReal [⟨false, (PyInt_AsLong (.PyInt n) : Rat)⟩] none)
  | .PyLong n => .ok (.RReal [⟨false, (PyInt_AsLong (.PyLong n) : Rat)⟩] none)
  | .PyFloat d => .ok (.RReal [PyFloat_AsDouble (.PyFloat d)] none)
  | .PyString s => .ok (.RStr [asStringD (.PyString s)] none)
  | .PyList xs =>
    match scalar_list_type xs with
    | .REALSXP => .ok (.RReal (xs.map PyFloat_AsDouble) none)
    | .INTSXP => .ok (.RInt (xs.map PyInt_AsLong) none)
    | .LGLSXP => .ok (.RLgl (xs.map eqPyTrue) none)
    | .STRSXP => .ok (.RStr (xs.map asStringD) none)
    | .NILSXP => do
      let ys ← py_to_r_list xs
      .ok (.RList ys none none)
  | .PyTuple xs fieldsAttr => do
    let ys ← py_to_r_list xs
    match fieldsAttr with
    | some (.PyTuple fs _) =>
      if fs.length = xs.length then
        match py_tuple_to_character fs with
        | some names => .ok (.RList ys (some names) none)
        | none => .error "PyString_AsString applied to a non-string"
      else .ok (.RList ys none none)
    | some _ => .ok (.RList ys none none)
    | none => .ok (.RList ys none none)
  | .PyDict entries => do
    let vals ← py_to_r_pairs entries
    if entries.isEmpty then .ok (.RList [] none none)
    else .ok (.RList vals (some (entries.map Prod.fst)) none)
  | .PyArray dims t data => do
    let tnum ← normalize_array_typenum t
    let casted := data.map (npy_cast_val tnum)
    match tnum with
    | .NPY_BOOL => .ok (.RLgl (casted.map NpyVal.asBool) (some dims))
    | .NPY_LONG => .ok (.RInt (casted.map NpyVal.asLong) (some dims))
    | .NPY_DOUBLE => .ok (.RReal (casted.map NpyVal.asDouble) (some dims))
    | _ => .ok .RNull
  | .PyOtherObj c tag => .ok (.RPyObject (.PyOtherObj c tag))

/-- Elementwise py_to_r over a guest list's items. -/
def py_to_r_list : List PyObj → Except String (List RObj)
  | [] => .ok []
  | x :: xs => do
    let y ← py_to_r x
    let ys ← py_to_r_list xs
    .ok (y :: ys)

/-- Elementwise py_to_r over a dict's values, in iteration order. -/
def py_to_r_pairs : List (String × PyObj) → Except String (List RObj)
  | [] => .ok []
  | kv :: rest => do
    let y ← py_to_r kv.2
    let ys ← py_to_r_pairs rest
    .ok (y :: ys)

end

/-- The stop message of the dim-attribute branch of r_to_py for a
non-numeric matrix (python.cpp lines 378-379; the source string has no
closing parenthesis). -/
def matrixConvErrMsg : String :=
  "Matrix type cannot be converted to python (only integer, numeric, and logical matrixes can be converted"

/-- PyDict_SetItemString semantics on an association list: replace the
value when the key is present, append otherwise. -/
def pyDictSet (d : List (String × PyObj)) (k : String) (v : PyObj) :
    List (String × PyObj) :=
  if d.any (fun e => e.1 == k) then
    d.map (fun e => if e.1 == k then (k, v) else e)
  else d ++ [(k, v)]

mutual

/-- r_to_py: convert a host value to a guest value (python.cpp lines
340-498).  Null maps to None; a wrapped guest object passes through;
a dimensioned numeric/logical vector becomes an array view and any
other dimensioned value stops; typed vectors unbox at length 1 and
become lists otherwise; a generic list becomes a dict when named and a
tuple when not; anything else stops. -/
def r_to_py : RObj → Except String PyObj
  | .RNull => .ok .PyNone
  | .RPyObject obj => .ok obj
  | .RInt xs (some dims) => .ok (.PyArray dims .NPY_INT (xs.map NpyVal.i))
  | .RReal xs (some dims) => .ok (.PyArray dims .NPY_DOUBLE (xs.map NpyVal.d))
  | .RLgl xs (some dims) => .ok (.PyArray dims .NPY_BOOL (xs.map NpyVal.b))
  | .RStr _ (some _) => .error matrixConvErrMsg
  | .RList _ _ (some _) => .error matrixConvErrMsg
  | .RInt xs none =>
    if xs.length = 1 then .ok (.PyInt xs.headI)
    else .ok (.PyList (xs.map PyObj.PyInt))
  | .RReal xs none =>
    if xs.length = 1 then .ok (.PyFloat xs.headI)
    else .ok (.PyList (xs.map PyObj.PyFloat))
  | .RLgl xs none =>
    if xs.length = 1 then .ok (.PyBool xs.headI)
    else .ok (.PyList (xs.map PyObj.PyBool))
  | .RStr xs none =>
    if xs.length = 1 then .ok (.PyString xs.headI)
    else .ok (.PyList (xs.map PyObj.PyString))
  | .RList xs (some names) none => do
    let entries ← r_to_py_entries names xs
    .ok (.PyDict (entries.foldl (fun d kv => pyDictSet d kv.1 kv.2) []))
  | .RList xs none none => do
    let items ← r_to_py_list xs
    .ok (.PyTuple items none)
  | .ROther _ => .error "Unable to convert R object to python type"

/-- Elementwise r_to_py over a generic list's items (tuple branch). -/
def r_to_py_list : List RObj → Except String (List PyObj)
  | [] => .ok []
  | x :: xs => do
    let y ← r_to_py x
    let ys ← r_to_py_list xs
    .ok (y :: ys)

/-- The dict branch's iteration: fetch the i-th name (an out-of-range
index throws, as CharacterVector::at does), convert the i-th item, and
collect the key/value pairs in order. -/
def r_to_py_entries : List String → List RObj → Except String (List (String × PyObj))
  | _, [] => .ok []
  | [], _ :: _ => .error "index out of bounds"
  | n :: ns, x :: xs => do
    let item ← r_to_py x
    let rest ← r_to_py_entries ns xs
    .ok ((n, item) :: rest)

end

/-- String form of a guest value, modelling the guest runtime's
PyObject_Str for the objects the bridge can hold (the bridge treats
this as an external oracle; only its application, never its content,
matters to the error bridge's contract). -/
def py_str_repr : PyObj → String
  | .PyNone => "None"
  | .PyBool b => if b then "True" else "False"
  | .PyInt n => toString n
  | .PyLong n => toString n
  | .PyFloat d => if d.isNaN then "nan" else toString d.val
  | .PyString s => s
  | .PyList _ => "<list>"
  | .PyTuple _ _ => "<tuple>"
  | .PyDict _ => "<dict>"
  | .PyArray _ _ _ => "<array>"
  | .PyOtherObj _ tag => tag

/-- PyObject_Str: the guest's string-form call, producing a string
object. -/
def PyObject_Str (x : PyObj) : PyObj :=
  .PyString (py_str_repr x)

/-- The guest interpreter's error-indicator state: the (type, value,
traceback) triple, each possibly absent. -/
structure GuestErr where
  excType : Option PyObj
  excValue : Option PyObj
  excTraceback : Option PyObj

/-- PyErr_Fetch: hand the current triple to the caller and clear the
indicator. -/
def PyErr_Fetch (s : GuestErr) :
    (Option PyObj × Option PyObj × Option PyObj) × GuestErr :=
  ((s.excType, s.excValue, s.excTraceback), ⟨none, none, none⟩)

/-- py_fetch_error (python.cpp lines 81-102): fetch the error triple,
stringify the exception value when present and fall back to the literal
"<unknown error>" otherwise; the returned state is the indicator after
the fetch. -/
def py_fetch_error (s : GuestErr) : String × GuestErr :=
  let (triple, cleared) := PyErr_Fetch s
  match triple.2.1 with
  | some v => (asStringD (PyObject_Str v), cleared)
  | none => ("<unknown error>", cleared)

/-- The classification applied to one fetched attribute by
py_get_attribute_types (python.cpp lines 615-633): callable, then
list/tuple/dict, then array, then scalar, and the list-like code for
everything else. -/
def attr_type (attr : PyObj) : Int :=
  if PyCallable_Check attr then 6
  else if PyList_Check attr || PyTuple_Check attr || PyDict_Check attr then 4
  else if PyArray_Check attr then 2
  else if PyBool_Check attr || PyInt_Check attr || PyLong_Check attr ||
          PyFloat_Check attr || PyString_Check attr then 1
  else 4

/-- py_get_attribute_types: the attribute-kind code of each fetched
attribute, in order. -/
def py_get_attribute_types (attrs : List PyObj) : List Int :=
  attrs.map attr_type

/-- dlopen flag RTLD_LAZY (lazy binding). -/
def RTLD_LAZY : Nat := 1

/-- dlopen flag RTLD_NOW (immediate binding). -/
def RTLD_NOW : Nat := 2

/-- dlopen flag RTLD_GLOBAL (symbols globally visible). -/
def RTLD_GLOBAL : Nat := 256

/-- The platform loader as the bootstrap sees it: whether dlopen
succeeds for a path and flag word, and the dlerror text reported on
failure. -/
structure LoaderEnv where
  dlopenOk : String → Nat → Bool
  dlerrorMsg : String

/-- Observable steps of the bootstrap, in order. -/
inductive InitEvent where
  | dlopenEv (path : String) (flags : Nat)
  | pyInitializeEv
  | setArgvEv (argc : Nat) (argv : List String)
  | importNumpyEv
deriving DecidableEq, Repr

/-- py_initialize (python.cpp lines 507-532): on a non-Apple platform,
dlopen the shared library with RTLD_NOW|RTLD_GLOBAL and stop with the
loader's error text when that fails; then initialize the interpreter,
seed argv with the single placeholder "python", and import the numpy
array api.  On Apple the dlopen step is skipped entirely. -/
def py_initialize' (env : LoaderEnv) (isApple : Bool)
    (pythonSharedLibrary : String) : Except String (List InitEvent) :=
  if !isApple then
    if env.dlopenOk pythonSharedLibrary (RTLD_NOW ||| RTLD_GLOBAL) then
      .ok [.dlopenEv pythonSharedLibrary (RTLD_NOW ||| RTLD_GLOBAL),
           .pyInitializeEv, .setArgvEv 1 ["python"], .importNumpyEv]
    else
      .error env.dlerrorMsg
  else
    .ok [.pyInitializeEv, .setArgvEv 1 ["python"], .importNumpyEv]

/-- The filesystem and interpreter as py_run_file sees them: the host's
path.expand, whether fopen succeeds on a path, the status of
PyRun_SimpleFile on a path, and the text py_fetch_error would return. -/
structure RunFileEnv where
  pathExpand : String → String
  canOpen : String → Bool
  runSimpleFileRes : String → Int
  fetchedError : String

/-- py_run_file (python.cpp lines 713-728): expand the path, fopen the
expanded path; when the file opens, run it (stopping with the fetched
guest error on nonzero status), otherwise stop with a message built
from the original, unexpanded path.  The second component is the path
handed to fopen. -/
def py_run_file (env : RunFileEnv) (file : String) :
    Except String Unit × String :=
  let expanded := env.pathExpand file
  (if env.canOpen expanded then
    if env.runSimpleFileRes expanded ≠ 0 then .error env.fetchedError
    else .ok ()
  else
    .error ("Unable to read script file '" ++ file ++ "' (does the file exist?)"),
  expanded)


/-- The length of an elementwise-converted guest list equals the input
length. -/
theorem py_to_r_list_length {xs : List PyObj} {ys : List RObj}
    (h : py_to_r_list xs = .ok ys) : ys.length = xs.length := by
  induction xs generalizing ys with
  | nil =>
    injection h with h2
    simp [h2.symm]
  | cons x rest ih =>
    cases hx : py_to_r x with
    | error e =>
      simp only [py_to_r_list, hx] at h
      injection h
    | ok y =>
      cases hrest : py_to_r_list rest with
      | error e =>
        simp only [py_to_r_list, hx, hrest] at h
        injection h
      | ok zs =>
        simp only [py_to_r_list, hx, hrest] at h
        injection h with h2
        rw [h2.symm]
        simp [ih hrest]

/-- When every element converts, the whole guest list converts,
elementwise. -/
theorem py_to_r_list_ok {xs : List PyObj}
    (h : ∀ x ∈ xs, ∃ y, py_to_r x = .ok y) :
    ∃ ys, py_to_r_list xs = .ok ys ∧
      List.Forall₂ (fun x y => py_to_r x = .ok y) xs ys := by
  induction xs with
  | nil => exact ⟨[], rfl, .nil⟩
  | cons x rest ih =>
    obtain ⟨y, hy⟩ := h x (List.mem_cons_self x rest)
    obtain ⟨ys, hys, hall⟩ := ih (fun z hz => h z (List.mem_cons_of_mem x hz))
    refine ⟨y :: ys, ?_, .cons hy hall⟩
    simp only [py_to_r_list, hy, hys]
    rfl

/-- A guest scalar always converts successfully. -/
theorem py_to_r_scalar_ok {x : PyObj} (h : r_scalar_type x ≠ .NILSXP) :
    ∃ y, py_to_r x = .ok y := by
  cases x <;>
    first
      | exact ⟨_, rfl⟩
      | (exfalso
         exact h (by simp [r_scalar_type, PyBool_Check, PyInt_Check,
           PyLong_Check, PyFloat_Check, PyString_Check]))

/-- A nonempty list whose elements all share one scalar kind is
classified as that kind. -/
theorem scalar_list_type_of_all {xs : List PyObj} {t : SexpType}
    (hne : xs ≠ []) (ht : t ≠ .NILSXP)
    (h : ∀ x ∈ xs, r_scalar_type x = t) :
    scalar_list_type xs = t := by
  cases xs with
  | nil => exact absurd rfl hne
  | cons first rest =>
    have hfirst : r_scalar_type first = t := h first (List.mem_cons_self _ _)
    have hrest : ∀ x ∈ rest, r_scalar_type x = t :=
      fun x hx => h x (List.mem_cons_of_mem _ hx)
    simp only [scalar_list_type, hfirst]
    rw [if_neg ht, if_pos]
    rw [List.all_eq_true]
    intro x hx
    simp [hrest x hx]

/-- A list with two elements of different scalar kinds, all elements
scalars, is classified NILSXP (not homogeneous). -/
theorem scalar_list_type_mixed {xs : List PyObj} {x₁ x₂ : PyObj}
    (h₁ : x₁ ∈ xs) (h₂ : x₂ ∈ xs)
    (hne : r_scalar_type x₁ ≠ r_scalar_type x₂) :
    scalar_list_type xs = .NILSXP := by
  cases xs with
  | nil => cases h₁
  | cons first rest =>
    by_cases ht : r_scalar_type first = .NILSXP
    · simp [scalar_list_type, ht]
    · have hz : ∃ z ∈ rest, r_scalar_type z ≠ r_scalar_type first := by
        by_cases hx₁ : r_scalar_type x₁ = r_scalar_type first
        · refine ⟨x₂, ?_, by rw [hx₁] at hne; exact fun hc => hne hc.symm⟩
          cases List.mem_cons.mp h₂ with
          | inl heq =>
            subst heq
            exact absurd hx₁ hne
          | inr hmem => exact hmem
        · refine ⟨x₁, ?_, hx₁⟩
          cases List.mem_cons.mp h₁ with
          | inl heq => exact absurd (heq ▸ rfl) hx₁
          | inr hmem => exact hmem
      obtain ⟨z, hzmem, hzne⟩ := hz
      simp only [scalar_list_type]
      rw [if_neg ht, if_neg]
      rw [List.all_eq_true]
      push_neg
      exact ⟨z, hzmem, by simp [hzne]⟩

/-- py_tuple_to_character succeeds exactly on string elements,
returning their payloads. -/
theorem py_tuple_to_character_map (ss : List String) :
    py_tuple_to_character (ss.map PyObj.PyString) = some ss := by
  induction ss with
  | nil => rfl
  | cons s rest ih => simp [py_tuple_to_character, PyString_AsString, ih]

/-- A successful py_tuple_to_character means every element was a string
with the returned payload. -/
theorem py_tuple_to_character_ok {fs : List PyObj} {ss : List String}
    (h : py_tuple_to_character fs = some ss) :
    fs = ss.map PyObj.PyString := by
  induction fs generalizing ss with
  | nil =>
    injection h with h2
    simp [h2.symm]
  | cons f rest ih =>
    cases hf : PyString_AsString f with
    | none => simp [py_tuple_to_character, hf] at h
    | some s =>
      cases hrest : py_tuple_to_character rest with
      | none => simp [py_tuple_to_character, hf, hrest] at h
      | some ss2 =>
        simp only [py_tuple_to_character, hf, hrest, Option.bind_some] at h
        have hfs : f = .PyString s := by
          cases f <;> simp_all [PyString_AsString]
        injection h with h2
        subst h2
        simp [hfs, ih hrest]

/-- When every element converts, a host list's items all convert,
elementwise (tuple branch of r_to_py). -/
theorem r_to_py_list_ok {xs : List RObj}
    (h : ∀ x ∈ xs, ∃ y, r_to_py x = .ok y) :
    ∃ ys, r_to_py_list xs = .ok ys ∧
      List.Forall₂ (fun x y => r_to_py x = .ok y) xs ys := by
  induction xs with
  | nil => exact ⟨[], rfl, .nil⟩
  | cons x rest ih =>
    obtain ⟨y, hy⟩ := h x (List.mem_cons_self x rest)
    obtain ⟨ys, hys, hall⟩ := ih (fun z hz => h z (List.mem_cons_of_mem x hz))
    refine ⟨y :: ys, ?_, .cons hy hall⟩
    simp only [r_to_py_list, hy, hys]
    rfl

/-- When the names run at least as long as the items and every item
converts, the dict branch's iteration produces the key/value pairs in
order, keyed exactly by the names. -/
theorem r_to_py_entries_ok {ns : List String} {xs : List RObj}
    (hlen : ns.length = xs.length)
    (h : ∀ x ∈ xs, ∃ y, r_to_py x = .ok y) :
    ∃ entries, r_to_py_entries ns xs = .ok entries ∧
      entries.map Prod.fst = ns ∧
      List.Forall₂ (fun x e => r_to_py x = .ok e.2) xs entries := by
  induction xs generalizing ns with
  | nil =>
    cases ns with
    | nil => exact ⟨[], rfl, rfl, .nil⟩
    | cons n ns2 => simp at hlen
  | cons x rest ih =>
    cases ns with
    | nil => simp at hlen
    | cons n ns2 =>
      obtain ⟨y, hy⟩ := h x (List.mem_cons_self x rest)
      obtain ⟨entries, hent, hkeys, hall⟩ :=
        @ih ns2 (by simpa using hlen)
          (fun z hz => h z (List.mem_cons_of_mem x hz))
      refine ⟨(n, y) :: entries, ?_, by simp [hkeys], .cons hy hall⟩
      simp only [r_to_py_entries, hy, hent]
      rfl

/-- Setting a key absent from the association list appends the pair. -/
theorem pyDictSet_append {d : List (String × PyObj)} {k : String}
    {v : PyObj} (h : ∀ e ∈ d, e.1 ≠ k) :
    pyDictSet d k v = d ++ [(k, v)] := by
  have hany : d.any (fun e => e.1 == k) = false := by
    rw [List.any_eq_false]
    intro e hmem
    simp [h e hmem]
  simp [pyDictSet, hany]

/-- Folding dict insertion over pairs whose keys are fresh and distinct
lays the pairs down in order. -/
theorem foldl_pyDictSet_nodup :
    ∀ (rest acc : List (String × PyObj)),
      ((acc ++ rest).map Prod.fst).Nodup →
      rest.foldl (fun d kv => pyDictSet d kv.1 kv.2) acc = acc ++ rest := by
  intro rest
  induction rest with
  | nil => intro acc _; simp
  | cons kv rest2 ih =>
    intro acc hnd
    have h1 : ((acc.map Prod.fst) ++ (kv.1 :: rest2.map Prod.fst)).Nodup := by
      simpa [List.map_append] using hnd
    have hdisj := (List.nodup_append.mp h1).2.2
    have hknotin : ∀ e ∈ acc, e.1 ≠ kv.1 := by
      intro e hmem heq
      exact hdisj (heq ▸ List.mem_map_of_mem Prod.fst hmem)
        (List.mem_cons_self _ _)
    have hset : pyDictSet acc kv.1 kv.2 = acc ++ [kv] := by
      simpa using @pyDictSet_append acc kv.1 kv.2 hknotin
    rw [List.foldl_cons, hset]
    have hnd2 : (((acc ++ [kv]) ++ rest2).map Prod.fst).Nodup := by
      simpa [List.append_assoc] using hnd
    rw [ih (acc ++ [kv]) hnd2]
    simp

/-- C1 counterexample: round-tripping the host integer vector [5]
through r_to_py and py_to_r yields the numeric (double) vector [5.0] —
the source's wrap(PyInt_AsLong(x)) wraps a C long, which Rcpp wraps as
REALSXP — and not the original integer vector, so the round trip is not
the identity on host integers. -/
theorem c1_integer_roundtrip_counterexample :
    (r_to_py (.RInt [5] none)).bind py_to_r =
      .ok (.RReal [⟨false, ((5 : Int) : Rat)⟩] none) ∧
    (r_to_py (.RInt [5] none)).bind py_to_r ≠ .ok (.RInt [5] none) := by
  refine ⟨rfl, ?_⟩
  intro h
  injection h with h2
  injection h2

/-- C1 amended: converting a host boolean, non-NaN double, or
byte-string scalar to a guest value with r_to_py and back with py_to_r
yields the same host scalar; a host integer scalar (in machine-long
range) comes back as the host numeric (double) scalar carrying the same
value, because the scalar integer branch wraps a C long. -/
theorem c1_scalar_roundtrip :
    (∀ b : Bool, (r_to_py (.RLgl [b] none)).bind py_to_r = .ok (.RLgl [b] none)) ∧
    (∀ n : Int, -(2 ^ 63) ≤ n → n < 2 ^ 63 →
      (r_to_py (.RInt [n] none)).bind py_to_r =
        .ok (.RReal [⟨false, (n : Rat)⟩] none)) ∧
    (∀ d : CDouble, d.isNaN = false →
      (r_to_py (.RReal [d] none)).bind py_to_r = .ok (.RReal [d] none)) ∧
    (∀ s : String, (r_to_py (.RStr [s] none)).bind py_to_r = .ok (.RStr [s] none)) :=
  ⟨fun _ => rfl, fun _ _ _ => rfl, fun _ _ => rfl, fun _ => rfl⟩

/-- C1 witness: the round trip at concrete scalars of each kind. -/
theorem c1_scalar_roundtrip_witness :
    (-(2 ^ 63) ≤ (5 : Int) ∧ (5 : Int) < 2 ^ 63 ∧
      (r_to_py (.RInt [5] none)).bind py_to_r =
        .ok (.RReal [⟨false, ((5 : Int) : Rat)⟩] none)) ∧
    ((⟨false, (3 : Rat) / 2⟩ : CDouble).isNaN = false ∧
      (r_to_py (.RReal [⟨false, (3 : Rat) / 2⟩] none)).bind py_to_r =
        .ok (.RReal [⟨false, (3 : Rat) / 2⟩] none)) ∧
    (r_to_py (.RLgl [true] none)).bind py_to_r = .ok (.RLgl [true] none) ∧
    (r_to_py (.RStr ["abc"] none)).bind py_to_r = .ok (.RStr ["abc"] none) :=
  ⟨⟨by norm_num, by norm_num,
      c1_scalar_roundtrip.2.1 5 (by norm_num) (by norm_num)⟩,
    ⟨rfl, c1_scalar_roundtrip.2.2.1 _ rfl⟩,
    c1_scalar_roundtrip.1 true,
    c1_scalar_roundtrip.2.2.2 "abc"⟩

/-- C4: py_fetch_error clears the guest error indicator and returns the
stringified exception value when one is present, and exactly the
literal string with unknown-error text when none is present. -/
theorem c4_fetch_error (s : GuestErr) :
    (py_fetch_error s).2 = ⟨none, none, none⟩ ∧
    (∀ v, s.excValue = some v →
      (py_fetch_error s).1 = asStringD (PyObject_Str v)) ∧
    (s.excValue = none → (py_fetch_error s).1 = "<unknown error>") := by
  refine ⟨?_, ?_, ?_⟩
  · cases hv : s.excValue <;> simp [py_fetch_error, PyErr_Fetch, hv]
  · intro v hv
    simp [py_fetch_error, PyErr_Fetch, hv]
  · intro hv
    simp [py_fetch_error, PyErr_Fetch, hv]

/-- C4 witness: the error bridge at a concrete present value and a
concrete absent value. -/
theorem c4_fetch_error_witness :
    (py_fetch_error ⟨some (.PyString "ValueError"), some (.PyString "boom"), none⟩).1 =
      asStringD (PyObject_Str (.PyString "boom")) ∧
    (py_fetch_error ⟨some (.PyString "ValueError"), some (.PyString "boom"), none⟩).2 =
      ⟨none, none, none⟩ ∧
    (py_fetch_error ⟨none, none, none⟩).1 = "<unknown error>" :=
  ⟨(c4_fetch_error _).2.1 _ rfl, (c4_fetch_error _).1, (c4_fetch_error _).2.2 rfl⟩

/-- C9: the attribute-kind classifier returns 6 for callables, 4 for
list, tuple and dict attributes, 2 for arrays, 1 for scalars, in that
precedence, and the list-like code 4 for every attribute matching none
of these. -/
theorem c9_attribute_kind_codes :
    (∀ tag, attr_type (.PyOtherObj true tag) = 6) ∧
    (∀ xs, attr_type (.PyList xs) = 4) ∧
    (∀ xs fo, attr_type (.PyTuple xs fo) = 4) ∧
    (∀ es, attr_type (.PyDict es) = 4) ∧
    (∀ dims t data, attr_type (.PyArray dims t data) = 2) ∧
    (∀ b, attr_type (.PyBool b) = 1) ∧
    (∀ n, attr_type (.PyInt n) = 1) ∧
    (∀ n, attr_type (.PyLong n) = 1) ∧
    (∀ d, attr_type (.PyFloat d) = 1) ∧
    (∀ s, attr_type (.PyString s) = 1) ∧
    (∀ tag, attr_type (.PyOtherObj false tag) = 4) ∧
    attr_type .PyNone = 4 ∧
    (∀ attrs, py_get_attribute_types attrs = attrs.map attr_type) :=
  ⟨fun _ => rfl, fun _ => rfl, fun _ _ => rfl, fun _ => rfl,
    fun _ _ _ => rfl, fun _ => rfl, fun _ => rfl, fun _ => rfl,
    fun _ => rfl, fun _ => rfl, fun _ => rfl, rfl, fun _ => rfl⟩

/-- C10: a length-0 typed vector of each of the four kinds, with no dim
attribute, converts to an empty guest list — not a scalar and not an
error — because only length 1 unboxes and every other length takes the
list branch. -/
theorem c10_empty_vector_to_empty_list :
    r_to_py (.RInt [] none) = .ok (.PyList []) ∧
    r_to_py (.RReal [] none) = .ok (.PyList []) ∧
    r_to_py (.RLgl [] none) = .ok (.PyList []) ∧
    r_to_py (.RStr [] none) = .ok (.PyList []) :=
  ⟨rfl, rfl, rfl, rfl⟩

/-- C6 counterexample: at a concrete loader and path the bootstrap's
dlopen step uses the flag word RTLD_NOW|RTLD_GLOBAL, whose RTLD_LAZY
bit is clear — the library is opened with immediate, not lazy, symbol
resolution, contradicting the claim as stated. -/
theorem c6_bootstrap_counterexample :
    py_initialize' ⟨fun _ _ => true, "load failed"⟩ false "libpython2.7.so" =
      .ok [.dlopenEv "libpython2.7.so" (RTLD_NOW ||| RTLD_GLOBAL),
        .pyInitializeEv, .setArgvEv 1 ["python"], .importNumpyEv] ∧
    (RTLD_NOW ||| RTLD_GLOBAL) &&& RTLD_LAZY = 0 ∧
    (RTLD_NOW ||| RTLD_GLOBAL) &&& RTLD_NOW ≠ 0 :=
  ⟨rfl, by decide, by decide⟩

/-- C6 amended: on non-Apple platforms, py_initialize opens the guest
shared library with immediate (RTLD_NOW) symbol resolution and globally
visible (RTLD_GLOBAL) symbols before initializing the interpreter, and
raises the platform loader's error verbatim when the library cannot be
loaded. -/
theorem c6_bootstrap_amended (env : LoaderEnv) (path : String) :
    (env.dlopenOk path (RTLD_NOW ||| RTLD_GLOBAL) = true →
      py_initialize' env false path =
        .ok [.dlopenEv path (RTLD_NOW ||| RTLD_GLOBAL), .pyInitializeEv,
          .setArgvEv 1 ["python"], .importNumpyEv]) ∧
    (env.dlopenOk path (RTLD_NOW ||| RTLD_GLOBAL) = false →
      py_initialize' env false path = .error env.dlerrorMsg) ∧
    (RTLD_NOW ||| RTLD_GLOBAL) &&& RTLD_GLOBAL ≠ 0 ∧
    (RTLD_NOW ||| RTLD_GLOBAL) &&& RTLD_LAZY = 0 := by
  refine ⟨?_, ?_, by decide, by decide⟩
  · intro h
    simp [py_initialize', h]
  · intro h
    simp [py_initialize', h]

/-- C6 witness: the amended bootstrap contract at a concrete succeeding
loader and a concrete failing loader. -/
theorem c6_bootstrap_witness :
    py_initialize' ⟨fun _ _ => true, "e"⟩ false "libpy.so" =
      .ok [.dlopenEv "libpy.so" (RTLD_NOW ||| RTLD_GLOBAL), .pyInitializeEv,
        .setArgvEv 1 ["python"], .importNumpyEv] ∧
    py_initialize' ⟨fun _ _ => false, "cannot open libpy.so"⟩ false "libpy.so" =
      .error "cannot open libpy.so" :=
  ⟨(c6_bootstrap_amended _ _).1 rfl, (c6_bootstrap_amended _ _).2.1 rfl⟩

/-- C7: when the file at the expanded path cannot be opened,
py_run_file raises a fault whose message is built from (and contains)
the original unexpanded path, while the open itself was attempted on
the expanded path. -/
theorem c7_run_file_missing (env : RunFileEnv) (file : String)
    (h : env.canOpen (env.pathExpand file) = false) :
    (py_run_file env file).1 =
      .error ("Unable to read script file '" ++ file ++ "' (does the file exist?)") ∧
    (py_run_file env file).2 = env.pathExpand file ∧
    file.data <:+:
      ("Unable to read script file '" ++ file ++ "' (does the file exist?)").data := by
  refine ⟨?_, rfl, ?_⟩
  · simp [py_run_file, h]
  · exact ⟨("Unable to read script file '").data, ("' (does the file exist?)").data,
      by simp⟩

/-- C7 witness: a concrete tilde path that fails to open is reported
with the original path while the expanded path was probed. -/
theorem c7_run_file_missing_witness :
    (py_run_file ⟨fun s => "/home/user/" ++ s, fun _ => false, fun _ => 0, "err"⟩
        "script.py").1 =
      .error ("Unable to read script file '" ++ "script.py" ++ "' (does the file exist?)") ∧
    (py_run_file ⟨fun s => "/home/user/" ++ s, fun _ => false, fun _ => 0, "err"⟩
        "script.py").2 = "/home/user/" ++ "script.py" :=
  ⟨(c7_run_file_missing _ _ rfl).1, (c7_run_file_missing _ _ rfl).2.1⟩

/-- C5: a guest n-d array converts with its element type normalized to
one of three canonical kinds — boolean stays boolean, each narrow
integer kind (int8, uint8, int16, uint16, int32, long) becomes machine
long integer, float32 and float64 become double — and any other element
kind fails with a message naming the numeric type tag. -/
theorem c5_array_type_normalization :
    (∀ dims data, py_to_r (.PyArray dims .NPY_BOOL data) =
      .ok (.RLgl ((data.map (npy_cast_val .NPY_BOOL)).map NpyVal.asBool) (some dims))) ∧
    (∀ t, t ∈ [NpyType.NPY_BYTE, .NPY_UBYTE, .NPY_SHORT, .NPY_USHORT, .NPY_INT, .NPY_LONG] →
      ∀ dims data, py_to_r (.PyArray dims t data) =
        .ok (.RInt ((data.map (npy_cast_val .NPY_LONG)).map NpyVal.asLong) (some dims))) ∧
    (∀ t, t ∈ [NpyType.NPY_FLOAT, .NPY_DOUBLE] →
      ∀ dims data, py_to_r (.PyArray dims t data) =
        .ok (.RReal ((data.map (npy_cast_val .NPY_DOUBLE)).map NpyVal.asDouble) (some dims))) ∧
    (∀ t, t ∉ [NpyType.NPY_BOOL, .NPY_BYTE, .NPY_UBYTE, .NPY_SHORT, .NPY_USHORT,
        .NPY_INT, .NPY_LONG, .NPY_FLOAT, .NPY_DOUBLE] →
      ∀ dims data, py_to_r (.PyArray dims t data) =
        .error ("Conversion from numpy array type " ++ toString t.toNat ++ " is not supported")) := by
  refine ⟨fun _ _ => rfl, ?_, ?_, ?_⟩
  · intro t ht dims data
    fin_cases ht <;> rfl
  · intro t ht dims data
    fin_cases ht <;> rfl
  · intro t ht dims data
    cases t <;> first | rfl | (exfalso; simp at ht)

/-- C5 witness: an int16 array becomes a machine-long host array, a
float32 array becomes a double host array, and a complex array fails
with the numeric tag 15 in the message. -/
theorem c5_array_type_normalization_witness :
    py_to_r (.PyArray [2] .NPY_SHORT [.i 3, .i 4]) =
      .ok (.RInt [3, 4] (some [2])) ∧
    py_to_r (.PyArray [1] .NPY_FLOAT [.d ⟨false, 2⟩]) =
      .ok (.RReal [⟨false, 2⟩] (some [1])) ∧
    py_to_r (.PyArray [1] .NPY_CDOUBLE [.d ⟨false, 0⟩]) =
      .error "Conversion from numpy array type 15 is not supported" :=
  ⟨c5_array_type_normalization.2.1 .NPY_SHORT (by simp) [2] [.i 3, .i 4],
    c5_array_type_normalization.2.2.1 .NPY_FLOAT (by simp) [1] [.d ⟨false, 2⟩],
    c5_array_type_normalization.2.2.2 .NPY_CDOUBLE (by simp) [1] [.d ⟨false, 0⟩]⟩

/-- C2: a nonempty guest list whose elements all share one scalar kind
converts to the host typed vector of that kind built from the elements
(hence of the same length); an empty list, or a list of scalars of
mixed kinds, converts to a host generic list with each element
converted recursively. -/
theorem c2_list_conversion :
    (∀ xs, xs ≠ [] → (∀ x ∈ xs, r_scalar_type x = .LGLSXP) →
      py_to_r (.PyList xs) = .ok (.RLgl (xs.map eqPyTrue) none)) ∧
    (∀ xs, xs ≠ [] → (∀ x ∈ xs, r_scalar_type x = .INTSXP) →
      py_to_r (.PyList xs) = .ok (.RInt (xs.map PyInt_AsLong) none)) ∧
    (∀ xs, xs ≠ [] → (∀ x ∈ xs, r_scalar_type x = .REALSXP) →
      py_to_r (.PyList xs) = .ok (.RReal (xs.map PyFloat_AsDouble) none)) ∧
    (∀ xs, xs ≠ [] → (∀ x ∈ xs, r_scalar_type x = .STRSXP) →
      py_to_r (.PyList xs) = .ok (.RStr (xs.map asStringD) none)) ∧
    py_to_r (.PyList []) = .ok (.RList [] none none) ∧
    (∀ xs x₁ x₂, x₁ ∈ xs → x₂ ∈ xs →
      (∀ x ∈ xs, r_scalar_type x ≠ .NILSXP) →
      r_scalar_type x₁ ≠ r_scalar_type x₂ →
      ∃ ys, py_to_r (.PyList xs) = .ok (.RList ys none none) ∧
        ys.length = xs.length ∧
        List.Forall₂ (fun x y => py_to_r x = .ok y) xs ys) := by
  have hbranch : ∀ xs : List PyObj, py_to_r (.PyList xs) =
      match scalar_list_type xs with
      | .REALSXP => .ok (.RReal (xs.map PyFloat_AsDouble) none)
      | .INTSXP => .ok (.RInt (xs.map PyInt_AsLong) none)
      | .LGLSXP => .ok (.RLgl (xs.map eqPyTrue) none)
      | .STRSXP => .ok (.RStr (xs.map asStringD) none)
      | .NILSXP => (py_to_r_list xs).bind (fun ys => .ok (.RList ys none none)) :=
    fun xs => rfl
  refine ⟨?_, ?_, ?_, ?_, rfl, ?_⟩
  · intro xs hne hall
    rw [hbranch, scalar_list_type_of_all hne (by simp) hall]
  · intro xs hne hall
    rw [hbranch, scalar_list_type_of_all hne (by simp) hall]
  · intro xs hne hall
    rw [hbranch, scalar_list_type_of_all hne (by simp) hall]
  · intro xs hne hall
    rw [hbranch, scalar_list_type_of_all hne (by simp) hall]
  · intro xs x₁ x₂ h₁ h₂ hscalar hne
    obtain ⟨ys, hys, hall⟩ :=
      py_to_r_list_ok (fun x hx => py_to_r_scalar_ok (hscalar x hx))
    refine ⟨ys, ?_, py_to_r_list_length hys, hall⟩
    rw [hbranch, scalar_list_type_mixed h₁ h₂ hne, hys]
    rfl

/-- C2 witness: a homogeneous boolean list, a homogeneous integer list
mixing int and long representations, and a mixed-kind list, at concrete
values. -/
theorem c2_list_conversion_witness :
    py_to_r (.PyList [.PyBool true, .PyBool false]) =
      .ok (.RLgl [true, false] none) ∧
    py_to_r (.PyList [.PyInt 1, .PyLong 2]) = .ok (.RInt [1, 2] none) ∧
    py_to_r (.PyList [.PyString "a", .PyString "b"]) =
      .ok (.RStr ["a", "b"] none) ∧
    (∃ ys, py_to_r (.PyList [.PyInt 1, .PyString "a"]) =
      .ok (.RList ys none none) ∧ ys.length = 2 ∧
      List.Forall₂ (fun x y => py_to_r x = .ok y) [.PyInt 1, .PyString "a"] ys) := by
  refine ⟨?_, ?_, ?_, ?_⟩
  · exact c2_list_conversion.1 _ (by simp) (by intro x hx; fin_cases hx <;> rfl)
  · exact c2_list_conversion.2.1 _ (by simp) (by intro x hx; fin_cases hx <;> rfl)
  · exact c2_list_conversion.2.2.2.1 _ (by simp) (by intro x hx; fin_cases hx <;> rfl)
  · exact c2_list_conversion.2.2.2.2.2 _ (.PyInt 1) (.PyString "a")
      (by simp) (by simp)
      (by intro x hx; fin_cases hx <;> simp [r_scalar_type, PyBool_Check,
        PyInt_Check, PyLong_Check, PyFloat_Check, PyString_Check])
      (by simp [r_scalar_type, PyBool_Check, PyInt_Check, PyLong_Check,
        PyFloat_Check, PyString_Check])

/-- C3: a guest tuple converts to a host generic list of the same
length with elements converted recursively; the field names of a
`_fields` attribute that is a same-length tuple of strings are attached
as element names, and names are attached only in that situation. -/
theorem c3_tuple_conversion (xs : List PyObj) (ys : List RObj)
    (h : py_to_r_list xs = .ok ys) :
    ys.length = xs.length ∧
    py_to_r (.PyTuple xs none) = .ok (.RList ys none none) ∧
    (∀ (ss : List String) (fo : Option PyObj),
      py_to_r (.PyTuple xs (some (.PyTuple (ss.map PyObj.PyString) fo))) =
        if ss.length = xs.length then .ok (.RList ys (some ss) none)
        else .ok (.RList ys none none)) ∧
    (∀ (fo : Option PyObj) (ns : List String) (zs : List RObj),
      py_to_r (.PyTuple xs fo) = .ok (.RList zs (some ns) none) →
      ∃ fo2, fo = some (.PyTuple (ns.map PyObj.PyString) fo2) ∧
        ns.length = xs.length) := by
  have hbranch : ∀ fo, py_to_r (.PyTuple xs fo) =
      (py_to_r_list xs).bind (fun ys =>
        match fo with
        | some (.PyTuple fs _) =>
          if fs.length = xs.length then
            match py_tuple_to_character fs with
            | some names => .ok (.RList ys (some names) none)
            | none => .error "PyString_AsString applied to a non-string"
          else .ok (.RList ys none none)
        | some _ => .ok (.RList ys none none)
        | none => .ok (.RList ys none none)) := fun _ => rfl
  refine ⟨py_to_r_list_length h, ?_, ?_, ?_⟩
  · rw [hbranch, h]
    rfl
  · intro ss fo
    rw [hbranch, h]
    by_cases hlen : ss.length = xs.length
    · simp only [Except.bind]
      rw [if_pos (by simpa using hlen), py_tuple_to_character_map]
      rw [if_pos hlen]
    · simp only [Except.bind]
      rw [if_neg (by simpa using hlen), if_neg hlen]
  · intro fo ns zs heq
    rw [hbranch, h] at heq
    simp only [Except.bind] at heq
    cases fo with
    | none => simp at heq
    | some f =>
      cases f with
      | PyTuple fs fo2 =>
        have heq2 : (if fs.length = xs.length then
            match py_tuple_to_character fs with
            | some names => Except.ok (RObj.RList ys (some names) none)
            | none =>
              (Except.error "PyString_AsString applied to a non-string" :
                Except String RObj)
          else Except.ok (RObj.RList ys none none)) =
            Except.ok (RObj.RList zs (some ns) none) := heq
        by_cases hlen : fs.length = xs.length
        · rw [if_pos hlen] at heq2
          cases hchar : py_tuple_to_character fs with
          | none => rw [hchar] at heq2; simp at heq2
          | some names =>
            rw [hchar] at heq2
            injection heq2 with h2
            injection h2 with _ hnames
            have : names = ns := by
              injection hnames
            subst this
            refine ⟨fo2, ?_, ?_⟩
            · rw [py_tuple_to_character_ok hchar]
            · rw [← hlen, py_tuple_to_character_ok hchar]
              simp
        · rw [if_neg hlen] at heq2
          simp at heq2
      | PyNone => simp at heq
      | PyBool b => simp at heq
      | PyInt n => simp at heq
      | PyLong n => simp at heq
      | PyFloat d => simp at heq
      | PyString s => simp at heq
      | PyList l => simp at heq
      | PyDict d => simp at heq
      | PyArray a b c => simp at heq
      | PyOtherObj a b => simp at heq

/-- C3 witness: a concrete named tuple attaches its field names, a
plain tuple of the same items attaches none, and a wrong-length fields
tuple attaches none. -/
theorem c3_tuple_conversion_witness :
    py_to_r (.PyTuple [.PyInt 1, .PyInt 2]
        (some (.PyTuple [.PyString "x", .PyString "y"] none))) =
      .ok (.RList [.RReal [⟨false, ((1 : Int) : Rat)⟩] none,
        .RReal [⟨false, ((2 : Int) : Rat)⟩] none] (some ["x", "y"]) none) ∧
    py_to_r (.PyTuple [.PyInt 1, .PyInt 2] none) =
      .ok (.RList [.RReal [⟨false, ((1 : Int) : Rat)⟩] none,
        .RReal [⟨false, ((2 : Int) : Rat)⟩] none] none none) ∧
    py_to_r (.PyTuple [.PyInt 1, .PyInt 2]
        (some (.PyTuple [.PyString "x"] none))) =
      .ok (.RList [.RReal [⟨false, ((1 : Int) : Rat)⟩] none,
        .RReal [⟨false, ((2 : Int) : Rat)⟩] none] none none) := by
  have h := c3_tuple_conversion [.PyInt 1, .PyInt 2]
    [.RReal [⟨false, ((1 : Int) : Rat)⟩] none,
      .RReal [⟨false, ((2 : Int) : Rat)⟩] none] rfl
  refine ⟨?_, h.2.1, ?_⟩
  · have := h.2.2.1 ["x", "y"] none
    simpa using this
  · have := h.2.2.1 ["x"] none
    simpa using this

/-- C8: after the null, already-wrapped and dimensioned cases, r_to_py
unboxes every length-1 typed vector to the matching guest scalar, turns
every longer typed vector into a guest list of scalars of that kind,
turns a named generic list into a guest mapping keyed by the names,
turns an unnamed generic list into a guest tuple, and faults on any
other host type. -/
theorem c8_host_to_guest_rules :
    r_to_py .RNull = .ok .PyNone ∧
    (∀ o, r_to_py (.RPyObject o) = .ok o) ∧
    (∀ xs d, r_to_py (.RInt xs (some d)) =
      .ok (.PyArray d .NPY_INT (xs.map NpyVal.i))) ∧
    (∀ xs d, r_to_py (.RReal xs (some d)) =
      .ok (.PyArray d .NPY_DOUBLE (xs.map NpyVal.d))) ∧
    (∀ xs d, r_to_py (.RLgl xs (some d)) =
      .ok (.PyArray d .NPY_BOOL (xs.map NpyVal.b))) ∧
    (∀ n : Int, r_to_py (.RInt [n] none) = .ok (.PyInt n)) ∧
    (∀ d : CDouble, r_to_py (.RReal [d] none) = .ok (.PyFloat d)) ∧
    (∀ b : Bool, r_to_py (.RLgl [b] none) = .ok (.PyBool b)) ∧
    (∀ s : String, r_to_py (.RStr [s] none) = .ok (.PyString s)) ∧
    (∀ xs, 1 < xs.length →
      r_to_py (.RInt xs none) = .ok (.PyList (xs.map PyObj.PyInt))) ∧
    (∀ xs, 1 < xs.length →
      r_to_py (.RReal xs none) = .ok (.PyList (xs.map PyObj.PyFloat))) ∧
    (∀ xs, 1 < xs.length →
      r_to_py (.RLgl xs none) = .ok (.PyList (xs.map PyObj.PyBool))) ∧
    (∀ xs, 1 < xs.length →
      r_to_py (.RStr xs none) = .ok (.PyList (xs.map PyObj.PyString))) ∧
    (∀ xs ns, ns.Nodup → ns.length = xs.length →
      (∀ x ∈ xs, ∃ y, r_to_py x = .ok y) →
      ∃ entries, r_to_py (.RList xs (some ns) none) = .ok (.PyDict entries) ∧
        entries.map Prod.fst = ns ∧
        List.Forall₂ (fun x e => r_to_py x = .ok e.2) xs entries) ∧
    (∀ xs, (∀ x ∈ xs, ∃ y, r_to_py x = .ok y) →
      ∃ ys, r_to_py (.RList xs none none) = .ok (.PyTuple ys none) ∧
        List.Forall₂ (fun x y => r_to_py x = .ok y) xs ys) ∧
    (∀ desc, r_to_py (.ROther desc) =
      .error "Unable to convert R object to python type") := by
  refine ⟨rfl, fun _ => rfl, fun _ _ => rfl, fun _ _ => rfl, fun _ _ => rfl,
    fun _ => rfl, fun _ => rfl, fun _ => rfl, fun _ => rfl,
    ?_, ?_, ?_, ?_, ?_, ?_, fun _ => rfl⟩
  · intro xs hlen
    have h1 : ¬ xs.length = 1 := by omega
    simp only [r_to_py, if_neg h1]
  · intro xs hlen
    have h1 : ¬ xs.length = 1 := by omega
    simp only [r_to_py, if_neg h1]
  · intro xs hlen
    have h1 : ¬ xs.length = 1 := by omega
    simp only [r_to_py, if_neg h1]
  · intro xs hlen
    have h1 : ¬ xs.length = 1 := by omega
    simp only [r_to_py, if_neg h1]
  · intro xs ns hnd hlen hall
    obtain ⟨entries, hent, hkeys, hfa⟩ := r_to_py_entries_ok hlen hall
    refine ⟨entries, ?_, hkeys, hfa⟩
    have hfold : entries.foldl (fun d kv => pyDictSet d kv.1 kv.2) [] = entries := by
      have := foldl_pyDictSet_nodup entries []
      simp only [List.nil_append] at this
      exact this (by rw [hkeys]; exact hnd)
    show (r_to_py_entries ns xs).bind (fun entries =>
        Except.ok (PyObj.PyDict
          (entries.foldl (fun d kv => pyDictSet d kv.1 kv.2) []))) =
      Except.ok (PyObj.PyDict entries)
    rw [hent]
    simp [Except.bind, hfold]
  · intro xs hall
    obtain ⟨ys, hys, hfa⟩ := r_to_py_list_ok hall
    refine ⟨ys, ?_, hfa⟩
    show (r_to_py_list xs).bind
        (fun items => Except.ok (PyObj.PyTuple items none)) =
      Except.ok (PyObj.PyTuple ys none)
    rw [hys]
    rfl

/-- C8 witness: the longer-than-1 list rule, the named-list-to-dict
rule and the unnamed-list-to-tuple rule at concrete values. -/
theorem c8_host_to_guest_rules_witness :
    r_to_py (.RInt [1, 2] none) = .ok (.PyList [.PyInt 1, .PyInt 2]) ∧
    (∃ entries, r_to_py (.RList [.RInt [7] none] (some ["k"]) none) =
      .ok (.PyDict entries) ∧ entries.map Prod.fst = ["k"] ∧
      List.Forall₂ (fun x e => r_to_py x = .ok e.2) [RObj.RInt [7] none] entries) ∧
    (∃ ys, r_to_py (.RList [.RNull, .RStr ["a"] none] none none) =
      .ok (.PyTuple ys none) ∧
      List.Forall₂ (fun x y => r_to_py x = .ok y) [RObj.RNull, .RStr ["a"] none] ys) := by
  refine ⟨?_, ?_, ?_⟩
  · exact c8_host_to_guest_rules.2.2.2.2.2.2.2.2.2.1 [1, 2] (by norm_num)
  · exact c8_host_to_guest_rules.2.2.2.2.2.2.2.2.2.2.2.2.2.1
      [.RInt [7] none] ["k"] (by simp) (by simp)
      (by intro x hx; fin_cases hx; exact ⟨_, rfl⟩)
  · exact c8_host_to_guest_rules.2.2.2.2.2.2.2.2.2.2.2.2.2.2.1
      [.RNull, .RStr ["a"] none]
      (by intro x hx; fin_cases hx <;> exact ⟨_, rfl⟩)
